import Mathlib

/-!
Shallow embedding of the RBSP data-retrieval modules of davitpy:
src/gme/sat/rbspEfield.py (class efieldRec, function readEfieldFtp) and
src/gme/sat/rbspPot.py (class PotRec, function readPotFtp).

Modelling conventions:
- Python datetimes are integer timestamps (seconds); one day is 86400.
- Python values that may be None are Option values.
- Uncaught Python exceptions are modelled with Except / explicit result
  constructors; an exception caught by a try/except block is modelled by
  the behaviour of that except block.
- The remote FTP state is an environment: per (day, satellite) slot it
  says whether cwd succeeds, what the listing is (or that nlst raised),
  whether the binary retrieval succeeds, and what the downloaded file
  parses to (or that pycdf.CDF raised).
- Python 2 semantics that matter here are modelled explicitly: str.find
  is a literal substring search; map over several iterables pads the
  shorter ones with None; list.sort raises TypeError when it has to
  compare a None sort key with a datetime key.
-/

/-- Python exception kinds that can arise in these two modules. -/
inductive PyErr where
  | typeError
  | valueError
  | indexError
  | assertError
  | cdfError
  deriving DecidableEq

/-- Python str.find: lowest index at which pat occurs as a literal substring
of s, or -1 when it does not occur.  (str.find does no glob matching.) -/
def pyFind (s pat : String) : Int :=
  match (List.range (s.length + 1)).find?
      (fun i => String.mk ((s.data.drop i).take pat.length) = pat) with
  | some i => (i : Int)
  | none => -1

/-- Python string slice s[a:b] for 0 <= a <= b; indices clamp to the length. -/
def pySliceStr (s : String) (a b : Nat) : String :=
  String.mk ((s.data.drop a).take (b - a))

/-- Python int(str) on the strings arising here: an optional sign followed by
decimal digits parses; anything else raises ValueError. -/
def pyInt (s : String) : Except PyErr Int :=
  let core : List Char → Option Int := fun ds =>
    if ds.isEmpty || !(ds.all Char.isDigit) then none
    else some (ds.foldl (fun acc c => 10 * acc + ((c.toNat : Int) - 48)) 0)
  match s.data with
  | [] => .error .valueError
  | c :: rest =>
    match (if c = '-' then (core rest).map (fun n => -n)
           else if c = '+' then core rest
           else core (c :: rest)) with
    | some n => .ok n
    | none => .error .valueError

/-- One day, in the integer-seconds model of datetimes. -/
def dayLen : Int := 86400

/-- dt.datetime(t.year, t.month, t.day): floor a timestamp to midnight. -/
def floorDay (t : Int) : Int := dayLen * (t.fdiv dayLen)

/-- os.path.dirname of the scratch directory string /tmp/sat/ (rbspEfield.py
lines 116-117, rbspPot.py lines 120-121): the initial value of the local
variable d. -/
def tmpD : String := "/tmp/sat"

/-- The version-scan loop shared verbatim by rbspEfield.py lines 145-153 and
rbspPot.py lines 149-157 (they differ only in the argument of str.find).
It walks dirlist with index i, reassigns the local variable d to each
filename, and tracks (maxver, maxind).  int() of an unparsable slice raises
ValueError, uncaught by the readers. -/
def versionScanGo (pattern : String) :
    List String → Nat → Int → Int → String → Except PyErr (Int × Int × String)
  | [], _, maxver, maxind, d => .ok (maxver, maxind, d)
  | f :: rest, i, maxver, maxind, _ =>
    let ind := pyFind f pattern
    if ind = (-1 : Int) then versionScanGo pattern rest (i + 1) maxver maxind f
    else
      match pyInt (pySliceStr f (ind.toNat + 2) (ind.toNat + 4)) with
      | .error e => .error e
      | .ok ver =>
        if ver > maxver then versionScanGo pattern rest (i + 1) ver (i : Int) f
        else versionScanGo pattern rest (i + 1) maxver maxind f

/-- The version scan started as in the source: maxver = maxind = -1. -/
def versionScan (pattern : String) (dirlist : List String) (d : String) :
    Except PyErr (Int × Int × String) :=
  versionScanGo pattern dirlist 0 (-1) (-1) d

/-- The complete version-selection step (rbspEfield.py lines 145-154,
rbspPot.py lines 149-158): run the scan, then `if maxind == -1: maxind = 0`.
Returns the selected index and the final value of the loop variable d. -/
def selectMaxind (pattern : String) (dirlist : List String) (d : String) :
    Except PyErr (Nat × String) :=
  match versionScan pattern dirlist d with
  | .error e => .error e
  | .ok (_, maxind, d2) => .ok (if maxind = -1 then 0 else maxind.toNat, d2)

/-- Insert into a list sorted by a boolean comparison, as list.sort orders
elements that compare cleanly. -/
def insertLe (le : α → α → Bool) (x : α) : List α → List α
  | [] => [x]
  | y :: ys => if le x y then x :: y :: ys else y :: insertLe le x ys

/-- Comparison sort by a boolean comparison. -/
def sortLe (le : α → α → Bool) : List α → List α
  | [] => []
  | x :: xs => insertLe le x (sortLe le xs)

/-- The total order Python 2 list.sort realizes on the keys that actually get
compared without raising: None keys sort among themselves, datetime keys by
time.  (A None key never meets a datetime key in a completed sort: that
comparison raises, see mixedTimes / pySortByTime.) -/
def timeKeyLe : Option Int → Option Int → Bool
  | none, _ => true
  | some _, none => false
  | some a, some b => decide (a ≤ b)

/-- Python 2 `x <= y` on the sort keys, where it is defined: None <= None is
True, datetime <= datetime is the time order, and comparing None with a
datetime raises TypeError (modelled as false: no returned list ever exhibits
such a pair). -/
def timeLe : Option Int → Option Int → Bool
  | none, none => true
  | some a, some b => decide (a ≤ b)
  | _, _ => false

/-- A list of records whose sort keys mix None with datetimes: sorting such a
list in Python 2 raises TypeError (datetime refuses order comparisons with
NoneType, and timsort compares every adjacent pair while detecting runs). -/
def mixedTimes (time : α → Option Int) (l : List α) : Bool :=
  l.any (fun r => (time r).isNone) && l.any (fun r => (time r).isSome)

/-- myData.sort(key=lambda x: x.time) in Python 2: raises TypeError on a
mixed None/datetime key list, otherwise sorts by the key order. -/
def pySortByTime (time : α → Option Int) (l : List α) : Except PyErr (List α) :=
  if mixedTimes time l then .error .typeError
  else .ok (sortLe (fun a b => timeKeyLe (time a) (time b)) l)

/-- The tail of both readers (rbspEfield.py lines 186-190, rbspPot.py lines
200-207): if any records were collected, sort them by time and return the
list, else return None. -/
def finishSort (time : α → Option Int) (myData : List α) : Except PyErr (Option (List α)) :=
  if 0 < myData.length then
    match pySortByTime time myData with
    | .error e => .error e
    | .ok l => .ok (some l)
  else .ok none

/-- bisect.bisect_left inner loop: binary search, lo/hi bounds, fuel bounds
the number of halvings (a.length halvings always suffice). -/
def bisectGo (a : List Int) (x : Int) : Nat → Nat → Nat → Nat
  | lo, _, 0 => lo
  | lo, hi, fuel + 1 =>
    if lo < hi then
      let mid := (lo + hi) / 2
      if a.getD mid 0 < x then bisectGo a x (mid + 1) hi fuel
      else bisectGo a x lo mid fuel
    else lo

/-- bisect.bisect_left(a, x). -/
def bisectLeft (a : List Int) (x : Int) : Nat := bisectGo a x 0 a.length a.length

/-- Python list slice l[a:b] (clamping semantics). -/
def pyListSlice (l : List α) (a b : Nat) : List α :=
  (l.drop a).take (b - a)

/-- The sat argument of the readers: a single identifier or a list
(rbspEfield.py line 96, rbspPot.py line 100 branch on isinstance(sat, list)). -/
inductive SatArg where
  | single (c : Char)
  | listArg (l : List Char)

/-- Lines 96-98 / 100-102: a non-list sat must be the character a or b
(assert), and is wrapped into a one-element list; a list sat is passed
through with no validation of its members. -/
def checkSat : SatArg → Except PyErr (List Char)
  | .single c => if c = 'a' ∨ c = 'b' then .ok [c] else .error .assertError
  | .listArg l => .ok l

/-- Outcome of one statement block inside the day/satellite loop: an uncaught
exception, an early `return None`, or normal continuation with a value. -/
inductive StepRes (α : Type) where
  | abort (e : PyErr)
  | retNone
  | cont (v : α)

/-- What a whole reader call does: raise an uncaught exception, or return a
Python value (None or a list of records). -/
inductive PyResult (α : Type) where
  | raised (e : PyErr)
  | returned (v : Option α)
  deriving DecidableEq

/-- Observable outcome of one reader call: the returned value or uncaught
exception, plus whether the FTP constructor was attempted (network activity),
whether it succeeded (a session existed), and whether ftp.quit was attempted. -/
structure RunOut (α : Type) where
  result : PyResult α
  connectAttempted : Bool
  sessionOpened : Bool
  quitAttempted : Bool

@[simp] lemma RunOut.result_mk (r : PyResult α) (c s q : Bool) :
    (RunOut.mk r c s q).result = r := rfl

@[simp] lemma RunOut.connectAttempted_mk (r : PyResult α) (c s q : Bool) :
    (RunOut.mk r c s q).connectAttempted = c := rfl

@[simp] lemma RunOut.sessionOpened_mk (r : PyResult α) (c s q : Bool) :
    (RunOut.mk r c s q).sessionOpened = s := rfl

@[simp] lemma RunOut.quitAttempted_mk (r : PyResult α) (c s q : Bool) :
    (RunOut.mk r c s q).quitAttempted = q := rfl

/-! ## rbspEfield.py -/

/-- The info string of efieldRec (rbspEfield.py line 63). -/
def efieldInfo : String :=
  "These data were downloaded from NASA CDAWEB at ftp://cdaweb.gsfc.nasa.gov/pub/data/rbsp, and the PI on the EFW instrument is J. Wygant from University of Minnesota"

/-- The dataSet string of efieldRec (rbspEfield.py line 62). -/
def efieldDataSet : String := "RBSP Efield Spinfit Data"

/-- A record of RBSP EFW E field (class efieldRec).  Every constructor
argument defaults to None in the source, hence the Option types. -/
structure efieldRec where
  time : Option Int
  ex : Int
  ey : Int
  ez : Int
  dataSet : String
  info : String
  sat : Option Char
  deriving DecidableEq

/-- efieldRec.__init__ (rbspEfield.py lines 57-64).  It unconditionally
evaluates elist[0], elist[1], elist[2]: None[0] raises TypeError and an
out-of-range index raises IndexError; otherwise all fields are set. -/
def efieldRec.init (time : Option Int) (elist : Option (List Int))
    (sat : Option Char) : Except PyErr efieldRec :=
  match elist with
  | none => .error .typeError
  | some l =>
    match l[0]?, l[1]?, l[2]? with
    | some x, some y, some z =>
      .ok ⟨time, x, y, z, efieldDataSet, efieldInfo, sat⟩
    | _, _, _ => .error .indexError

/-- Contents of one parsed E-field CDF file: the three variables the reader
touches.  The loop bound is len(cdf[vxb_spinfit_mgse]); epoch and the
e12_spinfit_mgse rows are indexed by the same i. -/
structure EfieldCdf where
  vxb : List Int
  epoch : List Int
  e12 : List (List Int)

/-- Remote state of one (day, satellite) slot for readEfieldFtp: does cwd
succeed; what does nlst give (none: nlst raised, caught at lines 139-140);
does the retrieval try-block succeed; what does pycdf.CDF give (none: it
raised, uncaught). -/
structure EfieldSlot where
  cwdOk : Bool
  nlst : Option (List String)
  retrOk : Bool
  cdf : Option EfieldCdf

/-- Environment of one readEfieldFtp call. quitOk models whether ftp.quit
raises at line 181 (the except at lines 182-183 swallows it either way). -/
structure EfieldEnv where
  connectOk : Bool
  loginOk : Bool
  quitOk : Bool
  slot : Int → Char → EfieldSlot

/-- The record-building loop (rbspEfield.py lines 169-172): for i in
range(len(cdf[vxb_spinfit_mgse])), test sTime <= epoch[i] < eTime and append
efieldRec(time=epoch[i], elist=e12[i], sat=s).  Indexing past the end of
epoch or e12, or a short e12 row, raises (uncaught). -/
def efieldParseGo (sTime eTime : Int) (sat : Char) (cdf : EfieldCdf) :
    Nat → Nat → Except PyErr (List efieldRec)
  | _, 0 => .ok []
  | i, n + 1 =>
    match cdf.epoch[i]? with
    | none => .error .indexError
    | some t =>
      if sTime ≤ t ∧ t < eTime then
        match cdf.e12[i]? with
        | none => .error .indexError
        | some row =>
          match efieldRec.init (some t) (some row) (some sat) with
          | .error e => .error e
          | .ok r =>
            match efieldParseGo sTime eTime sat cdf (i + 1) n with
            | .error e => .error e
            | .ok rest => .ok (r :: rest)
      else efieldParseGo sTime eTime sat cdf (i + 1) n

/-- The record-building loop started at i = 0. -/
def efieldParse (sTime eTime : Int) (sat : Char) (cdf : EfieldCdf) :
    Except PyErr (List efieldRec) :=
  efieldParseGo sTime eTime sat cdf 0 cdf.vxb.length

/-- One (day, satellite) slot of readEfieldFtp (lines 128-172).  cwd failure
executes `return None` (line 133).  The listing defaults to [] when nlst
raised.  The guard at line 143 tests the leftover variable d (not dirlist).
The download try-block (lines 157-165) catches both the IndexError of
dirlist[maxind] on an empty listing and a failed retrieval, but its except
handler re-evaluates dirlist[maxind] in its second print (line 164): when
that index is out of range the handler itself raises an uncaught IndexError
before reaching continue, aborting the whole call; when the index is valid
the handler's prints succeed and it continues.  A pycdf.CDF failure
(line 168) is uncaught. -/
def efieldSlotStep (sTime eTime : Int) (s : Char) (slot : EfieldSlot)
    (d : String) : StepRes (List efieldRec × String) :=
  if ¬ slot.cwdOk then .retNone
  else
    let dirlist := slot.nlst.getD []
    if 0 < d.length then
      match selectMaxind "_v" dirlist d with
      | .error e => .abort e
      | .ok (maxind, d2) =>
        match dirlist[maxind]? with
        | none => .abort .indexError
        | some _ =>
          if ¬ slot.retrOk then .cont ([], d2)
          else
            match slot.cdf with
            | none => .abort .cdfError
            | some cdf =>
              match efieldParse sTime eTime s cdf with
              | .error e => .abort e
              | .ok recs => .cont (recs, d2)
    else .cont ([], d)

/-- The inner `for s in sat` loop of readEfieldFtp for one day, threading the
variable d and appending each slot's records to myData. -/
def efieldSatLoop (sTime eTime : Int) (slotf : Int → Char → EfieldSlot)
    (day : Int) : List Char → String → StepRes (List efieldRec × String)
  | [], d => .cont ([], d)
  | s :: rest, d =>
    match efieldSlotStep sTime eTime s (slotf day s) d with
    | .abort e => .abort e
    | .retNone => .retNone
    | .cont (recs, d2) =>
      match efieldSatLoop sTime eTime slotf day rest d2 with
      | .abort e => .abort e
      | .retNone => .retNone
      | .cont (recs2, d3) => .cont (recs ++ recs2, d3)

/-- The `while myTime < eTime` day loop of readEfieldFtp (lines 125-177),
advancing myTime by one day per iteration.  fuel bounds the number of
iterations; the callers pass (eTime - floorDay sTime).toNat, which always
suffices since each iteration consumes a whole day. -/
def efieldDayLoop (sTime eTime : Int) (slotf : Int → Char → EfieldSlot)
    (sat : List Char) : Nat → Int → String → StepRes (List efieldRec × String)
  | 0, _, d => .cont ([], d)
  | fuel + 1, myTime, d =>
    if myTime < eTime then
      match efieldSatLoop sTime eTime slotf myTime sat d with
      | .abort e => .abort e
      | .retNone => .retNone
      | .cont (recs, d2) =>
        match efieldDayLoop sTime eTime slotf sat fuel (myTime + dayLen) d2 with
        | .abort e => .abort e
        | .retNone => .retNone
        | .cont (recs2, d3) => .cont (recs ++ recs2, d3)
    else .cont ([], d)

/-- readEfieldFtp (rbspEfield.py lines 67-190).  eTime defaults to one day
after sTime; assert eTime >= sTime; validate a non-list sat; connect and log
in (each failure prints and returns None); run the day loop; quit (its own
errors swallowed); sort and return the records, or None when none were
collected. -/
def readEfieldFtp (env : EfieldEnv) (sTime : Int) (eTimeArg : Option Int)
    (sat : SatArg) : RunOut (List efieldRec) :=
  let eTime := eTimeArg.getD (sTime + dayLen)
  if eTime < sTime then ⟨.raised .assertError, false, false, false⟩
  else
    match checkSat sat with
    | .error e => ⟨.raised e, false, false, false⟩
    | .ok satList =>
      if ¬ env.connectOk then ⟨.returned none, true, false, false⟩
      else if ¬ env.loginOk then ⟨.returned none, true, true, false⟩
      else
        match efieldDayLoop sTime eTime env.slot satList
            (eTime - floorDay sTime).toNat (floorDay sTime) tmpD with
        | .abort e => ⟨.raised e, true, true, false⟩
        | .retNone => ⟨.returned none, true, true, false⟩
        | .cont (myData, _) =>
          match finishSort (fun r => r.time) myData with
          | .error e => ⟨.raised e, true, true, true⟩
          | .ok v => ⟨.returned v, true, true, true⟩

/-! ## rbspPot.py -/

/-- The info string of PotRec (rbspPot.py line 61). -/
def potInfo : String :=
  "These data were downloaded from NASA CDAWEB at ftp://cdaweb.gsfc.nasa.gov/pub/data/rbsp, and the PI on the EFW instrument is J. Wygant from University of Minnesota"

/-- The dataSet string of PotRec (rbspPot.py line 60). -/
def potDataSet : String := "RBSP Potential Data"

/-- A record of RBSP EFW potential data (class PotRec). -/
structure PotRec where
  time : Option Int
  vsvy : Option (List Int)
  vsvyAvg : Option Int
  dataSet : String
  info : String
  sat : Option Char
  deriving DecidableEq

/-- PotRec.__init__ (rbspPot.py lines 56-62): stores its arguments, never
raises. -/
def PotRec.init (time : Option Int) (vsvy : Option (List Int))
    (vsvyAvg : Option Int) (sat : Option Char) : PotRec :=
  ⟨time, vsvy, vsvyAvg, potDataSet, potInfo, sat⟩

/-- Contents of one parsed potential CDF file: the variables the reader
touches. -/
structure PotCdf where
  epoch : List Int
  vsvy : List (List Int)
  vavg : List Int

/-- Remote state of one (day, satellite) slot for readPotFtp. -/
structure PotSlot where
  cwdOk : Bool
  nlst : Option (List String)
  retrOk : Bool
  cdf : Option PotCdf

/-- Environment of one readPotFtp call. -/
structure PotEnv where
  connectOk : Bool
  loginOk : Bool
  quitOk : Bool
  slot : Int → Char → PotSlot

/-- rbspPot.py line 184: map(lambda x,y,z,a: myData.append(PotRec(...)),
epoch, vsvy, vsvyAvg, s).  Python 2 map iterates to the LONGEST of the four
iterables and pads the shorter ones with None; s is the one-character
satellite string, so it contributes exactly one element. -/
def potMap (epoch : List Int) (vsvy : List (List Int)) (vavg : List Int)
    (s : Char) : List PotRec :=
  let n := max (max epoch.length vsvy.length) (max vavg.length 1)
  (List.range n).map (fun k =>
    PotRec.init epoch[k]? vsvy[k]? vavg[k]? ([s][k]?))

/-- One (day, satellite) slot of readPotFtp (lines 132-186).  Identical in
shape to the E-field slot, including the except handler of the download
try-block (lines 166-169) whose second print re-evaluates dirlist[maxind]
and so raises an uncaught IndexError itself when the listing is empty;
except: the version scan searches for the literal substring given at line
152, and the parsed file is windowed with bisect_left and sliced, then
converted with the padded map. -/
def potSlotStep (sTime eTime : Int) (s : Char) (slot : PotSlot)
    (d : String) : StepRes (List PotRec × String) :=
  if ¬ slot.cwdOk then .retNone
  else
    let dirlist := slot.nlst.getD []
    if 0 < d.length then
      match selectMaxind "_v??.cdf" dirlist d with
      | .error e => .abort e
      | .ok (maxind, d2) =>
        match dirlist[maxind]? with
        | none => .abort .indexError
        | some _ =>
          if ¬ slot.retrOk then .cont ([], d2)
          else
            match slot.cdf with
            | none => .abort .cdfError
            | some cdf =>
              let start := bisectLeft cdf.epoch sTime
              let stop := bisectLeft cdf.epoch eTime
              .cont (potMap (pyListSlice cdf.epoch start stop)
                            (pyListSlice cdf.vsvy start stop)
                            (pyListSlice cdf.vavg start stop) s, d2)
    else .cont ([], d)

/-- The inner `for s in sat` loop of readPotFtp for one day. -/
def potSatLoop (sTime eTime : Int) (slotf : Int → Char → PotSlot)
    (day : Int) : List Char → String → StepRes (List PotRec × String)
  | [], d => .cont ([], d)
  | s :: rest, d =>
    match potSlotStep sTime eTime s (slotf day s) d with
    | .abort e => .abort e
    | .retNone => .retNone
    | .cont (recs, d2) =>
      match potSatLoop sTime eTime slotf day rest d2 with
      | .abort e => .abort e
      | .retNone => .retNone
      | .cont (recs2, d3) => .cont (recs ++ recs2, d3)

/-- The `while myTime < eTime` day loop of readPotFtp (lines 129-191). -/
def potDayLoop (sTime eTime : Int) (slotf : Int → Char → PotSlot)
    (sat : List Char) : Nat → Int → String → StepRes (List PotRec × String)
  | 0, _, d => .cont ([], d)
  | fuel + 1, myTime, d =>
    if myTime < eTime then
      match potSatLoop sTime eTime slotf myTime sat d with
      | .abort e => .abort e
      | .retNone => .retNone
      | .cont (recs, d2) =>
        match potDayLoop sTime eTime slotf sat fuel (myTime + dayLen) d2 with
        | .abort e => .abort e
        | .retNone => .retNone
        | .cont (recs2, d3) => .cont (recs ++ recs2, d3)
    else .cont ([], d)

/-- readPotFtp (rbspPot.py lines 65-207): same top-level shape as
readEfieldFtp. -/
def readPotFtp (env : PotEnv) (sTime : Int) (eTimeArg : Option Int)
    (sat : SatArg) : RunOut (List PotRec) :=
  let eTime := eTimeArg.getD (sTime + dayLen)
  if eTime < sTime then ⟨.raised .assertError, false, false, false⟩
  else
    match checkSat sat with
    | .error e => ⟨.raised e, false, false, false⟩
    | .ok satList =>
      if ¬ env.connectOk then ⟨.returned none, true, false, false⟩
      else if ¬ env.loginOk then ⟨.returned none, true, true, false⟩
      else
        match potDayLoop sTime eTime env.slot satList
            (eTime - floorDay sTime).toNat (floorDay sTime) tmpD with
        | .abort e => ⟨.raised e, true, true, false⟩
        | .retNone => ⟨.returned none, true, true, false⟩
        | .cont (myData, _) =>
          match finishSort (fun r => r.time) myData with
          | .error e => ⟨.raised e, true, true, true⟩
          | .ok v => ⟨.returned v, true, true, true⟩

/-- Following the words of the spec, not the code: a filename carries a
parsable two-digit version suffix when the marker _v occurs in it and the two
characters after the marker parse as an integer.  Used only to compare the
version-resolution sentence of the spec with the code. -/
def specParsableVersion (f : String) : Bool :=
  let ind := pyFind f "_v"
  ind ≠ -1 &&
    (match pyInt (pySliceStr f (ind.toNat + 2) (ind.toNat + 4)) with
     | .ok _ => true
     | .error _ => false)

/-! ## Concrete environments used by the witnesses and counterexamples -/

/-- An E-field slot with one file and one in-window sample at time 150. -/
def slotA : EfieldSlot :=
  ⟨true, some ["f_20130101_v01.cdf"], true, some ⟨[0], [150], [[1, 2, 3]]⟩⟩

/-- An E-field slot whose file parses but holds no samples. -/
def slotBGood : EfieldSlot := ⟨true, some ["g_20130101_v02.cdf"], true, some ⟨[], [], []⟩⟩

/-- An E-field slot whose downloaded file fails to parse (pycdf.CDF raises). -/
def slotBBad : EfieldSlot := ⟨true, some ["g_20130101_v02.cdf"], true, none⟩

/-- Both satellites healthy; satellite a has one record. -/
def envGood : EfieldEnv := ⟨true, true, true, fun _ s => if s = 'a' then slotA else slotBGood⟩

/-- Satellite a healthy with one record; satellite b's file fails to parse. -/
def envParseFail : EfieldEnv := ⟨true, true, true, fun _ s => if s = 'a' then slotA else slotBBad⟩

/-- Directory navigation fails for every slot. -/
def envCwdFail : EfieldEnv := ⟨true, true, true, fun _ _ => ⟨false, some [], true, none⟩⟩

/-- Connecting to the server fails. -/
def envNoConnect : EfieldEnv := ⟨false, true, true, fun _ _ => ⟨true, some [], true, none⟩⟩

/-- The single record produced by envGood in the window [100, 200). -/
def recA : efieldRec := ⟨some 150, 1, 2, 3, efieldDataSet, efieldInfo, some 'a'⟩

/-- A potential CDF whose only sample precedes the window [100, 200). -/
def potCdfEarly : PotCdf := ⟨[10], [[1, 2]], [5]⟩

/-- A potential CDF with two samples inside the window [100, 200). -/
def potCdfTwo : PotCdf := ⟨[110, 120], [[1], [2]], [7, 8]⟩

/-- Every slot serves the early-sample file. -/
def potEnvEarly : PotEnv :=
  ⟨true, true, true, fun _ _ => ⟨true, some ["p_20130101_v01.cdf"], true, some potCdfEarly⟩⟩

/-- Every slot serves the two-sample file. -/
def potEnvTwo : PotEnv :=
  ⟨true, true, true, fun _ _ => ⟨true, some ["p_20130101_v01.cdf"], true, some potCdfTwo⟩⟩

/-- Connecting to the server fails (potential reader). -/
def potEnvNoConnect : PotEnv := ⟨false, true, true, fun _ _ => ⟨true, some [], true, none⟩⟩

/-- Directory navigation fails for every slot (potential reader). -/
def potEnvCwdFail : PotEnv := ⟨true, true, true, fun _ _ => ⟨false, some [], true, none⟩⟩

/-- The padding record readPotFtp builds when the window slice is empty:
Python 2 map pads the exhausted slices with None while the one-character
satellite string still yields its element. -/
def potRecPad : PotRec := ⟨none, none, none, potDataSet, potInfo, some 'a'⟩

/-- First record of the two-sample run: gets the real satellite letter. -/
def potRecT1 : PotRec := ⟨some 110, some [1], some 7, potDataSet, potInfo, some 'a'⟩

/-- Second record of the two-sample run: the satellite string is exhausted
after one element, so Python 2 map pads sat with None. -/
def potRecT2 : PotRec := ⟨some 120, some [2], some 8, potDataSet, potInfo, none⟩

/-- An E-field slot with a file whose retrieval fails. -/
def efSlotRetrFail : EfieldSlot := ⟨true, some ["f_20130101_v01.cdf"], false, none⟩

/-- A potential slot with a file whose retrieval fails. -/
def potSlotRetrFail : PotSlot := ⟨true, some ["p_20130101_v01.cdf"], false, none⟩

/-- An E-field slot whose listing is empty. -/
def efSlotEmpty : EfieldSlot := ⟨true, some [], true, none⟩

/-- A potential slot whose listing is empty. -/
def potSlotEmpty : PotSlot := ⟨true, some [], true, none⟩

/-- Every E-field slot navigates fine but its date listing is empty. -/
def envEmptyList : EfieldEnv := ⟨true, true, true, fun _ _ => efSlotEmpty⟩

/-- Every potential slot navigates fine but its date listing is empty. -/
def potEnvEmptyList : PotEnv := ⟨true, true, true, fun _ _ => potSlotEmpty⟩

/-! ## Helper lemmas -/

lemma mem_insertLe {le : α → α → Bool} {x b : α} :
    ∀ {l : List α}, b ∈ insertLe le x l → b = x ∨ b ∈ l := by
  intro l
  induction l with
  | nil => intro h; simp [insertLe] at h; exact Or.inl h
  | cons y ys ih =>
    intro h
    simp only [insertLe] at h
    by_cases hxy : le x y = true
    · rw [if_pos hxy] at h
      rcases List.mem_cons.mp h with h1 | h2
      · exact Or.inl h1
      · exact Or.inr h2
    · rw [if_neg hxy] at h
      rcases List.mem_cons.mp h with h1 | h2
      · exact Or.inr (h1 ▸ List.mem_cons_self _ _)
      · rcases ih h2 with h3 | h4
        · exact Or.inl h3
        · exact Or.inr (List.mem_cons_of_mem _ h4)

lemma mem_sortLe {le : α → α → Bool} {b : α} :
    ∀ {l : List α}, b ∈ sortLe le l → b ∈ l := by
  intro l
  induction l with
  | nil => intro h; simp [sortLe] at h
  | cons x xs ih =>
    intro h
    simp only [sortLe] at h
    rcases mem_insertLe h with h1 | h2
    · exact h1 ▸ List.mem_cons_self _ _
    · exact List.mem_cons_of_mem _ (ih h2)

lemma insertLe_head {le : α → α → Bool} (x y : α) (ys : List α)
    (hyx : le y x = true) (hch : ∀ z ∈ ys.head?, le y z = true) :
    ∀ z ∈ (insertLe le x ys).head?, le y z = true := by
  cases ys with
  | nil => intro z hz; simp [insertLe] at hz; subst hz; exact hyx
  | cons b t =>
    intro z hz
    by_cases hxb : le x b = true
    · simp only [insertLe, if_pos hxb, List.head?_cons, Option.mem_def,
        Option.some.injEq] at hz
      subst hz; exact hyx
    · simp only [insertLe, if_neg hxb, List.head?_cons, Option.mem_def,
        Option.some.injEq] at hz
      subst hz; exact hch b (by simp)

lemma chain'_insertLe {le : α → α → Bool}
    (tot : ∀ a b, le a b = true ∨ le b a = true) (x : α) :
    ∀ (l : List α), List.Chain' (fun a b => le a b = true) l →
      List.Chain' (fun a b => le a b = true) (insertLe le x l) := by
  intro l
  induction l with
  | nil => intro _; simp [insertLe]
  | cons y ys ih =>
    intro hc
    rw [List.chain'_cons'] at hc
    by_cases hxy : le x y = true
    · simp only [insertLe, if_pos hxy]
      rw [List.chain'_cons']
      refine ⟨?_, List.chain'_cons'.mpr hc⟩
      intro z hz
      simp only [List.head?_cons, Option.mem_def, Option.some.injEq] at hz
      subst hz; exact hxy
    · have hyx : le y x = true := (tot x y).resolve_left (fun h => hxy h)
      simp only [insertLe, if_neg hxy]
      rw [List.chain'_cons']
      exact ⟨insertLe_head x y ys hyx hc.1, ih hc.2⟩

lemma chain'_sortLe {le : α → α → Bool}
    (tot : ∀ a b, le a b = true ∨ le b a = true) :
    ∀ (l : List α), List.Chain' (fun a b => le a b = true) (sortLe le l) := by
  intro l
  induction l with
  | nil => simp [sortLe]
  | cons x xs ih =>
    simp only [sortLe]
    exact chain'_insertLe tot x _ ih

lemma chain'_imp_mem {R S : α → α → Prop} :
    ∀ {l : List α}, (∀ a ∈ l, ∀ b ∈ l, R a b → S a b) →
      List.Chain' R l → List.Chain' S l := by
  intro l
  induction l with
  | nil => intro _ _; exact List.chain'_nil
  | cons a t ih =>
    intro h hc
    rw [List.chain'_cons'] at hc ⊢
    refine ⟨?_, ih (fun x hx y hy =>
      h x (List.mem_cons_of_mem _ hx) y (List.mem_cons_of_mem _ hy)) hc.2⟩
    intro y hy
    refine h a (List.mem_cons_self _ _) y ?_ (hc.1 y hy)
    cases t with
    | nil => simp at hy
    | cons b t2 =>
      simp only [List.head?_cons, Option.mem_def, Option.some.injEq] at hy
      subst hy
      exact List.mem_cons_of_mem _ (List.mem_cons_self _ _)

lemma timeKeyLe_total : ∀ a b : Option Int, timeKeyLe a b = true ∨ timeKeyLe b a = true := by
  intro a b
  match a, b with
  | none, _ => exact Or.inl rfl
  | some x, none => exact Or.inr rfl
  | some x, some y =>
    simp only [timeKeyLe, decide_eq_true_eq]
    omega

lemma pySort_chain (time : α → Option Int) (l l2 : List α)
    (h : pySortByTime time l = .ok l2) :
    List.Chain' (fun a b => timeLe (time a) (time b) = true) l2 := by
  unfold pySortByTime at h
  split at h
  · exact absurd h (by simp)
  · rename_i hmix
    injection h with h2
    subst h2
    refine chain'_imp_mem ?_
      (chain'_sortLe (fun a b => timeKeyLe_total (time a) (time b)) l)
    intro a ha b hb hab
    have ha2 : a ∈ l := mem_sortLe ha
    have hb2 : b ∈ l := mem_sortLe hb
    cases hta : time a with
    | none =>
      cases htb : time b with
      | none => simp [timeLe]
      | some tb =>
        exfalso
        apply hmix
        unfold mixedTimes
        rw [Bool.and_eq_true]
        exact ⟨List.any_eq_true.mpr ⟨a, ha2, by simp [hta]⟩,
          List.any_eq_true.mpr ⟨b, hb2, by simp [htb]⟩⟩
    | some ta =>
      cases htb : time b with
      | none => rw [hta, htb] at hab; simp [timeKeyLe] at hab
      | some tb =>
        rw [hta, htb] at hab
        simpa [timeLe, timeKeyLe] using hab

lemma finishSort_some (time : α → Option Int) (md : List α) (l : List α)
    (h : finishSort time md = .ok (some l)) : pySortByTime time md = .ok l := by
  unfold finishSort at h
  split at h
  · cases heq : pySortByTime time md with
    | error e => rw [heq] at h; exact absurd h (by simp)
    | ok l2 =>
      rw [heq] at h
      simp only [Except.ok.injEq, Option.some.injEq] at h
      rw [h]
  · exact absurd h (by simp)

lemma versionScanGo_noMatch (pattern : String) :
    ∀ (l : List String) (i : Nat) (mv mi : Int) (d : String),
      (∀ f ∈ l, pyFind f pattern = -1) →
      ∃ d2, versionScanGo pattern l i mv mi d = .ok (mv, mi, d2) := by
  intro l
  induction l with
  | nil => intro i mv mi d _; exact ⟨d, rfl⟩
  | cons f rest ih =>
    intro i mv mi d h
    have hf : pyFind f pattern = -1 := h f (List.mem_cons_self _ _)
    obtain ⟨d2, hd2⟩ := ih (i + 1) mv mi f
      (fun g hg => h g (List.mem_cons_of_mem _ hg))
    refine ⟨d2, ?_⟩
    simp only [versionScanGo, hf, if_pos]
    exact hd2

/-! ## Claim theorems -/

/-- C1: every list returned by readEfieldFtp or readPotFtp is sorted
non-decreasingly by the records' time field: for every valid index i,
S[i].time <= S[i+1].time (stated as the adjacent-pairs chain). -/
theorem c1_returned_sorted :
    (∀ (env : EfieldEnv) (sTime : Int) (eTimeArg : Option Int) (sat : SatArg)
        (l : List efieldRec),
      (readEfieldFtp env sTime eTimeArg sat).result = .returned (some l) →
      List.Chain' (fun a b => timeLe a.time b.time = true) l) ∧
    (∀ (env : PotEnv) (sTime : Int) (eTimeArg : Option Int) (sat : SatArg)
        (l : List PotRec),
      (readPotFtp env sTime eTimeArg sat).result = .returned (some l) →
      List.Chain' (fun a b => timeLe a.time b.time = true) l) := by
  constructor
  · intro env sTime eTimeArg sat l h
    simp only [readEfieldFtp] at h
    repeat' split at h
    all_goals simp_all
    rename_i hfin
    exact pySort_chain _ _ _ (finishSort_some _ _ _ hfin)
  · intro env sTime eTimeArg sat l h
    simp only [readPotFtp] at h
    repeat' split at h
    all_goals simp_all
    rename_i hfin
    exact pySort_chain _ _ _ (finishSort_some _ _ _ hfin)

/-- Witness for C1: concrete calls of both readers that return a list, and
the sortedness of those lists obtained from the theorem. -/
theorem c1_witness :
    List.Chain' (fun a b => timeLe a.time b.time = true) [recA] ∧
    List.Chain' (fun a b => timeLe a.time b.time = true) [potRecT1, potRecT2] :=
  ⟨c1_returned_sorted.1 envGood 100 (some 200) (.listArg ['a', 'b']) [recA] rfl,
   c1_returned_sorted.2 potEnvTwo 100 (some 200) (.single 'a')
     [potRecT1, potRecT2] rfl⟩

/-- C2 (code bug): a readPotFtp call over a slot whose file parses and whose
time-index array (non-decreasing, as the claim assumes) lies entirely before
the window returns a record with time = None — outside the half-open window
[sTime, eTime) — because the Python 2 map at rbspPot.py line 184 still
iterates once over the one-character satellite string and pads the exhausted
epoch slice with None. -/
theorem c2_padding_record_bug :
    List.Chain' (fun a b : Int => a ≤ b) potCdfEarly.epoch ∧
    (readPotFtp potEnvEarly 100 (some 200) (.single 'a')).result
      = .returned (some [potRecPad]) ∧
    potRecPad.time = none := by
  refine ⟨?_, rfl, rfl⟩
  simp [potCdfEarly]

/-- C3 (code bug): a readPotFtp call whose window slice holds two samples
returns a second record with sat = None rather than the requested satellite:
Python 2 map exhausts the one-character satellite string after the first
element and pads it with None (rbspPot.py line 184). -/
theorem c3_sat_none_bug :
    (readPotFtp potEnvTwo 100 (some 200) (.single 'a')).result
      = .returned (some [potRecT1, potRecT2]) ∧
    potRecT1.sat = some 'a' ∧
    potRecT2.sat = none :=
  ⟨rfl, rfl, rfl⟩

/-- C4 (code bug): on the claim's candidate list, readEfieldFtp's selection
step (search for the marker at rbspEfield.py line 148) picks index 1, the
highest version f_v03.ext; but readPotFtp's step (rbspPot.py line 152)
searches for its eight-character argument as a literal substring — str.find
does no glob matching — never matches, and falls back to index 0, selecting
f_v01.ext instead of the highest version. -/
theorem c4_version_selection_bug :
    selectMaxind "_v" ["f_v01.ext", "f_v03.ext", "f_v02.ext"] tmpD
      = .ok (1, "f_v02.ext") ∧
    selectMaxind "_v??.cdf" ["f_v01.ext", "f_v03.ext", "f_v02.ext"] tmpD
      = .ok (0, "f_v02.ext") ∧
    (["f_v01.ext", "f_v03.ext", "f_v02.ext"] : List String)[1]? = some "f_v03.ext" ∧
    (["f_v01.ext", "f_v03.ext", "f_v02.ext"] : List String)[0]? = some "f_v01.ext" :=
  ⟨rfl, rfl, rfl, rfl⟩

/-- Counterexample to C5: a listing whose only filename carries the marker
followed by letters has no parsable version suffix, yet the selection step of
both readers raises ValueError (int() of a non-digit slice, uncaught) instead
of selecting the first candidate. -/
theorem c5_counterexample :
    (["f_vab.ext"].all (fun f => !(specParsableVersion f)) = true ∧
      selectMaxind "_v" ["f_vab.ext"] tmpD = .error .valueError) ∧
    (["f_v??.cdf"].all (fun f => !(specParsableVersion f)) = true ∧
      selectMaxind "_v??.cdf" ["f_v??.cdf"] tmpD = .error .valueError) := by
  refine ⟨⟨by decide, rfl⟩, ⟨by decide, rfl⟩⟩

/-- C5 as amended: when no candidate filename contains the searched version
marker at all (the marker substring of rbspEfield.py line 148 resp.
rbspPot.py line 152 does not occur, the code's no-match case), the selection
step of each reader deterministically selects index 0, the first candidate in
listing order. -/
theorem c5_first_candidate :
    (∀ (dirlist : List String) (d : String), dirlist ≠ [] →
        (∀ f ∈ dirlist, pyFind f "_v" = -1) →
        ∃ d2, selectMaxind "_v" dirlist d = .ok (0, d2)) ∧
    (∀ (dirlist : List String) (d : String), dirlist ≠ [] →
        (∀ f ∈ dirlist, pyFind f "_v??.cdf" = -1) →
        ∃ d2, selectMaxind "_v??.cdf" dirlist d = .ok (0, d2)) := by
  constructor
  · intro dirlist d _ h
    obtain ⟨d2, hd2⟩ := versionScanGo_noMatch "_v" dirlist 0 (-1) (-1) d h
    refine ⟨d2, ?_⟩
    unfold selectMaxind versionScan
    rw [hd2]
    rfl
  · intro dirlist d _ h
    obtain ⟨d2, hd2⟩ := versionScanGo_noMatch "_v??.cdf" dirlist 0 (-1) (-1) d h
    refine ⟨d2, ?_⟩
    unfold selectMaxind versionScan
    rw [hd2]
    rfl

/-- Witness for C5 as amended: a concrete marker-free listing on which both
selection steps pick index 0. -/
theorem c5_witness :
    (∃ d2, selectMaxind "_v" ["plainfile.cdf"] tmpD = .ok (0, d2)) ∧
    (∃ d2, selectMaxind "_v??.cdf" ["plainfile.cdf"] tmpD = .ok (0, d2)) :=
  ⟨c5_first_candidate.1 ["plainfile.cdf"] tmpD (by simp) (by decide),
   c5_first_candidate.2 ["plainfile.cdf"] tmpD (by simp) (by decide)⟩

/-- C6 (code bug): a (day, satellite) slot whose directory listing for the
target date is empty is NOT a normal no-data outcome.  The guard at
rbspEfield.py line 143 / rbspPot.py line 147 tests the leftover variable d
(its comment says "if we found files", but dirlist is not what is tested), so
the block is entered anyway; dirlist[maxind] raises IndexError inside the
download try, and the except handler's second print (line 164 / 168)
re-evaluates dirlist[maxind] and raises an uncaught IndexError before
reaching continue — the slot aborts the whole call instead of contributing
zero records and continuing. -/
theorem c6_empty_listing_abort :
    efieldSlotStep 100 200 'a' efSlotEmpty tmpD = .abort .indexError ∧
    potSlotStep 100 200 'a' potSlotEmpty tmpD = .abort .indexError ∧
    (readEfieldFtp envEmptyList 100 (some 200) (.single 'a')).result
      = .raised .indexError ∧
    (readPotFtp potEnvEmptyList 100 (some 200) (.single 'a')).result
      = .raised .indexError :=
  ⟨rfl, rfl, rfl, rfl⟩

/-- Counterexample to C7: pycdf.CDF sits outside every try block
(rbspEfield.py line 168), so a slot whose downloaded file fails to parse
aborts the whole call with an uncaught exception instead of contributing
zero records; the records already collected from the healthy slot of the
same request (returned when both slots parse) are discarded. -/
theorem c7_parse_abort_counterexample :
    (readEfieldFtp envGood 100 (some 200) (.listArg ['a', 'b'])).result
      = .returned (some [recA]) ∧
    (readEfieldFtp envParseFail 100 (some 200) (.listArg ['a', 'b'])).result
      = .raised .cdfError :=
  ⟨rfl, rfl⟩

/-- C7 as amended: a failure of the file retrieval (the try block of
rbspEfield.py lines 157-165 resp. rbspPot.py lines 161-169) is contained to
its (day, satellite) slot — provided the version-selection step itself
succeeded AND the selected index names a file actually present in the
listing, so that the except handler's own re-indexing print succeeds and its
continue is reached: the slot then contributes zero records and the loop
continues.  By contrast, a parse failure of the downloaded file aborts the
whole request (see the counterexample), and so does an empty listing, whose
IndexError is re-raised by the handler's print (see C6). -/
theorem c7_retrieval_contained :
    (∀ (sTime eTime : Int) (s : Char) (slot : EfieldSlot) (d : String)
        (v : Nat × String) (f : String),
        slot.cwdOk = true → slot.retrOk = false →
        selectMaxind "_v" (slot.nlst.getD []) d = .ok v →
        (slot.nlst.getD [])[v.1]? = some f →
        ∃ d2, efieldSlotStep sTime eTime s slot d = .cont ([], d2)) ∧
    (∀ (sTime eTime : Int) (s : Char) (slot : PotSlot) (d : String)
        (v : Nat × String) (f : String),
        slot.cwdOk = true → slot.retrOk = false →
        selectMaxind "_v??.cdf" (slot.nlst.getD []) d = .ok v →
        (slot.nlst.getD [])[v.1]? = some f →
        ∃ d2, potSlotStep sTime eTime s slot d = .cont ([], d2)) := by
  constructor
  · intro sTime eTime s slot d v f hcwd hretr hsel hidx
    obtain ⟨mi, d2⟩ := v
    by_cases hd : 0 < d.length
    · refine ⟨d2, ?_⟩
      simp only at hidx
      simp only [efieldSlotStep, hcwd, hsel, hretr, hidx, if_pos hd]
      simp
    · exact ⟨d, by simp [efieldSlotStep, hcwd, hd]⟩
  · intro sTime eTime s slot d v f hcwd hretr hsel hidx
    obtain ⟨mi, d2⟩ := v
    by_cases hd : 0 < d.length
    · refine ⟨d2, ?_⟩
      simp only at hidx
      simp only [potSlotStep, hcwd, hsel, hretr, hidx, if_pos hd]
      simp
    · exact ⟨d, by simp [potSlotStep, hcwd, hd]⟩

/-- Witness for C7 as amended: concrete slots of both readers whose listing
holds the selected file but whose download fails contribute zero records and
continue. -/
theorem c7_witness :
    (∃ d2, efieldSlotStep 100 200 'a' efSlotRetrFail tmpD = .cont ([], d2)) ∧
    (∃ d2, potSlotStep 100 200 'a' potSlotRetrFail tmpD = .cont ([], d2)) :=
  ⟨c7_retrieval_contained.1 100 200 'a' efSlotRetrFail tmpD
      (0, "f_20130101_v01.cdf") "f_20130101_v01.cdf" rfl rfl rfl rfl,
   c7_retrieval_contained.2 100 200 'a' potSlotRetrFail tmpD
      (0, "p_20130101_v01.cdf") "p_20130101_v01.cdf" rfl rfl rfl rfl⟩

/-- Counterexample to C8: the cwd-failure path of both readers executes
`return None` directly (rbspEfield.py line 133, rbspPot.py line 137),
skipping ftp.quit — the session was successfully opened but is never
closed on this failure exit. -/
theorem c8_leak_counterexample :
    ((readEfieldFtp envCwdFail 100 (some 200) (.single 'a')).sessionOpened = true ∧
      (readEfieldFtp envCwdFail 100 (some 200) (.single 'a')).quitAttempted = false) ∧
    ((readPotFtp potEnvCwdFail 100 (some 200) (.single 'a')).sessionOpened = true ∧
      (readPotFtp potEnvCwdFail 100 (some 200) (.single 'a')).quitAttempted = false) :=
  ⟨⟨rfl, rfl⟩, ⟨rfl, rfl⟩⟩

/-- C8 as amended: ftp.quit is attempted only on the path that runs the day
loop to completion — in particular whenever a list is returned — and an
error raised by the teardown itself is swallowed, never changing the result
(the env quitOk flag is irrelevant to the outcome); on early failure exits
such as a directory-navigation failure the session is not closed (see the
counterexample). -/
theorem c8_close_semantics :
    (∀ (env : EfieldEnv) (sTime : Int) (eTimeArg : Option Int) (sat : SatArg)
        (l : List efieldRec),
      (readEfieldFtp env sTime eTimeArg sat).result = .returned (some l) →
      (readEfieldFtp env sTime eTimeArg sat).quitAttempted = true) ∧
    (∀ (co lo q1 q2 : Bool) (sl : Int → Char → EfieldSlot) (sTime : Int)
        (eTimeArg : Option Int) (sat : SatArg),
      (readEfieldFtp ⟨co, lo, q1, sl⟩ sTime eTimeArg sat).result
        = (readEfieldFtp ⟨co, lo, q2, sl⟩ sTime eTimeArg sat).result) ∧
    (∀ (env : PotEnv) (sTime : Int) (eTimeArg : Option Int) (sat : SatArg)
        (l : List PotRec),
      (readPotFtp env sTime eTimeArg sat).result = .returned (some l) →
      (readPotFtp env sTime eTimeArg sat).quitAttempted = true) ∧
    (∀ (co lo q1 q2 : Bool) (sl : Int → Char → PotSlot) (sTime : Int)
        (eTimeArg : Option Int) (sat : SatArg),
      (readPotFtp ⟨co, lo, q1, sl⟩ sTime eTimeArg sat).result
        = (readPotFtp ⟨co, lo, q2, sl⟩ sTime eTimeArg sat).result) := by
  refine ⟨?_, ?_, ?_, ?_⟩
  · intro env sTime eTimeArg sat l h
    simp only [readEfieldFtp] at h ⊢
    repeat' split at h
    all_goals simp_all
    rw [if_neg (by omega)]
  · intro co lo q1 q2 sl sTime eTimeArg sat
    rfl
  · intro env sTime eTimeArg sat l h
    simp only [readPotFtp] at h ⊢
    repeat' split at h
    all_goals simp_all
    rw [if_neg (by omega)]
  · intro co lo q1 q2 sl sTime eTimeArg sat
    rfl

/-- Witness for C8 as amended: the concrete list-returning runs of both
readers attempted ftp.quit. -/
theorem c8_witness :
    (readEfieldFtp envGood 100 (some 200) (.listArg ['a', 'b'])).quitAttempted = true ∧
    (readPotFtp potEnvTwo 100 (some 200) (.single 'a')).quitAttempted = true :=
  ⟨c8_close_semantics.1 envGood 100 (some 200) (.listArg ['a', 'b']) [recA] rfl,
   c8_close_semantics.2.2.1 potEnvTwo 100 (some 200) (.single 'a')
     [potRecT1, potRecT2] rfl⟩

/-- Counterexample to C9: a sat argument passed as the list containing only
the invalid identifier c is not rejected — the isinstance(sat, list) branch
skips the assertion entirely — and the call proceeds to network activity
(the FTP constructor is attempted) and returns None rather than raising. -/
theorem c9_list_unvalidated :
    ((readEfieldFtp envNoConnect 100 (some 200) (.listArg ['c'])).connectAttempted = true ∧
      (readEfieldFtp envNoConnect 100 (some 200) (.listArg ['c'])).result = .returned none) ∧
    ((readPotFtp potEnvNoConnect 100 (some 200) (.listArg ['c'])).connectAttempted = true ∧
      (readPotFtp potEnvNoConnect 100 (some 200) (.listArg ['c'])).result = .returned none) :=
  ⟨⟨rfl, rfl⟩, ⟨rfl, rfl⟩⟩

/-- C9 as amended: a sat argument passed as a single identifier other than a
or b is rejected by the assertion before any network activity, in both
readers; list arguments are not validated (see the counterexample). -/
theorem c9_scalar_rejected :
    (∀ (c : Char), c ≠ 'a' → c ≠ 'b' →
      ∀ (env : EfieldEnv) (sTime : Int) (eTimeArg : Option Int),
        readEfieldFtp env sTime eTimeArg (.single c)
          = ⟨.raised .assertError, false, false, false⟩) ∧
    (∀ (c : Char), c ≠ 'a' → c ≠ 'b' →
      ∀ (env : PotEnv) (sTime : Int) (eTimeArg : Option Int),
        readPotFtp env sTime eTimeArg (.single c)
          = ⟨.raised .assertError, false, false, false⟩) := by
  constructor
  · intro c h1 h2 env sTime eTimeArg
    have hcs : checkSat (.single c) = .error .assertError := by
      simp only [checkSat]
      rw [if_neg]
      intro hor
      rcases hor with h | h
      · exact h1 h
      · exact h2 h
    simp only [readEfieldFtp, hcs]
    rw [ite_self]
  · intro c h1 h2 env sTime eTimeArg
    have hcs : checkSat (.single c) = .error .assertError := by
      simp only [checkSat]
      rw [if_neg]
      intro hor
      rcases hor with h | h
      · exact h1 h
      · exact h2 h
    simp only [readPotFtp, hcs]
    rw [ite_self]

/-- Witness for C9 as amended: the invalid single identifier x is rejected
by both readers with no network activity. -/
theorem c9_witness :
    readEfieldFtp envGood 100 (some 200) (.single 'x')
      = ⟨.raised .assertError, false, false, false⟩ ∧
    readPotFtp potEnvTwo 100 (some 200) (.single 'x')
      = ⟨.raised .assertError, false, false, false⟩ :=
  ⟨c9_scalar_rejected.1 'x' (by decide) (by decide) envGood 100 (some 200),
   c9_scalar_rejected.2 'x' (by decide) (by decide) potEnvTwo 100 (some 200)⟩

/-- The record built by the successful-construction witness of C10. -/
def recW : efieldRec := ⟨some 5, 4, 5, 6, efieldDataSet, efieldInfo, some 'a'⟩

/-- C10: efieldRec.__init__ unconditionally indexes its elist argument at 0,
1, 2: construction raises for elist = None (the documented no-argument
example) and for any payload of fewer than three elements, and every
successfully constructed record has its three field components taken from a
payload of arity at least three, with time and sat fields stored as given. -/
theorem c10_init_arity :
    ∀ (time : Option Int) (elist : Option (List Int)) (sat : Option Char),
      (elist = none → efieldRec.init time elist sat = .error .typeError) ∧
      (∀ l, elist = some l → l.length < 3 →
        efieldRec.init time elist sat = .error .indexError) ∧
      (∀ r, efieldRec.init time elist sat = .ok r →
        ∃ l, elist = some l ∧ 3 ≤ l.length ∧
          l[0]? = some r.ex ∧ l[1]? = some r.ey ∧ l[2]? = some r.ez ∧
          r.time = time ∧ r.sat = sat) := by
  intro time elist sat
  refine ⟨?_, ?_, ?_⟩
  · intro h; subst h; rfl
  · intro l h hlen
    subst h
    have h2 : l[2]? = none := List.getElem?_eq_none (by omega)
    unfold efieldRec.init
    cases h0 : l[0]? <;> cases h1 : l[1]? <;> simp [h0, h1, h2]
  · intro r h
    cases elist with
    | none => exact absurd h (by simp [efieldRec.init])
    | some l =>
      simp only [efieldRec.init] at h
      cases h0 : l[0]? with
      | none => rw [h0] at h; simp at h
      | some x =>
        cases h1 : l[1]? with
        | none => rw [h0, h1] at h; simp at h
        | some y =>
          cases h2 : l[2]? with
          | none => rw [h0, h1, h2] at h; simp at h
          | some z =>
            rw [h0, h1, h2] at h
            simp only [Except.ok.injEq] at h
            subst h
            have hlen : 2 < l.length := by
              by_contra hle
              rw [List.getElem?_eq_none (by omega)] at h2
              exact Option.noConfusion h2
            exact ⟨l, rfl, by omega, h0, h1, h2, rfl, rfl⟩

/-- Witness for C10: concrete constructions — elist None raises, a
two-element payload raises, and a three-element payload populates all
fields. -/
theorem c10_witness :
    efieldRec.init (some 5) none (some 'a') = .error .typeError ∧
    efieldRec.init (some 5) (some [1, 2]) (some 'a') = .error .indexError ∧
    (∃ l, (some [4, 5, 6] : Option (List Int)) = some l ∧ 3 ≤ l.length ∧
      l[0]? = some recW.ex ∧ l[1]? = some recW.ey ∧ l[2]? = some recW.ez ∧
      recW.time = some 5 ∧ recW.sat = some 'a') :=
  ⟨(c10_init_arity (some 5) none (some 'a')).1 rfl,
   (c10_init_arity (some 5) (some [1, 2]) (some 'a')).2.1 [1, 2] rfl (by decide),
   (c10_init_arity (some 5) (some [4, 5, 6]) (some 'a')).2.2 recW rfl⟩
